import Mathlib

/-!
Shallow embedding of the node-alexa-smapi client (`src/index.js`) and of the
polling / backoff helpers of its conformance test suite (`src/unnamed/part_000`,
a mocha test file).  JavaScript JSON-like values are modelled by the inductive
type `Json`; JavaScript objects are association lists of fields; the absent
value `undefined` is the constructor `Json.undefined`.  Promise-based control flow
is modelled by explicit outcome types: a handler that sleeps and then lets the
outer mocha harness re-run the test (re-issuing the original call) is the
constructor `sleepRetry`, a handler that surfaces a value is `report` / `done`.
-/

/-- JavaScript JSON-like values as used by the client: `undefined` is the
JavaScript value `undefined`, objects are ordered field lists.  JSON arrays are
not needed by any of the modelled operations and are omitted. -/
inductive Json where
  | undefined : Json
  | null : Json
  | bool : Bool → Json
  | num : Int → Json
  | str : String → Json
  | obj : List (String × Json) → Json

/-- Property access `j[k]`: on an object, the first field named `k`
(JavaScript objects have unique keys); a missing property reads as
`undefined`.  Reads on non-objects are out of the modelled range and also
yield `undefined`. -/
def Json.get : Json → String → Json
  | .obj fs, k => (fs.lookup k).getD .undefined
  | _, _ => .undefined

/-- Whether an object has an own property named `k` (the JavaScript `in`
operator restricted to own keys, which is all the source relies on). -/
def Json.hasField : Json → String → Bool
  | .obj fs, k => (fs.lookup k).isSome
  | _, _ => false

/-- JavaScript `delete j[k]`: removes the field named `k` from an object. -/
def Json.deleteKey : Json → String → Json
  | .obj fs, k => .obj (fs.filter (fun kv => kv.1 != k))
  | j, _ => j

/-- Applies `f` to the field named `k` of an object, in place; models an
in-place mutation of a nested object reached through property `k`. -/
def Json.modifyField : Json → String → (Json → Json) → Json
  | .obj fs, k, f => .obj (fs.map (fun kv => if kv.1 = k then (kv.1, f kv.2) else kv))
  | j, _, _ => j

/-- JavaScript strict equality `===` on the values the source compares:
primitives compare by value; two distinct objects are never `===` (reference
equality, which the embedding does not model — the source only ever compares
a status field against a string or number literal). -/
def Json.primEq : Json → Json → Bool
  | .undefined, .undefined => true
  | .null, .null => true
  | .bool a, .bool b => a == b
  | .num a, .num b => a == b
  | .str a, .str b => a == b
  | _, _ => false

/-- JavaScript template-literal stringification `String(x)` for the values
that are interpolated into URL templates (identifiers are strings in every
actual call). -/
def Json.jstr : Json → String
  | .undefined => "undefined"
  | .null => "null"
  | .bool b => if b then "true" else "false"
  | .num n => toString n
  | .str s => s
  | .obj _ => "[object Object]"

/-- Object.assign with a fresh target: starts from `target`'s fields, then
copies every own enumerable field of `source` over it — an existing key is
overwritten in place, a new key is appended in `source` order.  A `null` or
`undefined` source contributes nothing (JavaScript skips such sources);
primitive sources have no own enumerable properties of interest here, the
response bodies being JSON objects. -/
def Json.assign (target source : Json) : Json :=
  match target, source with
  | .obj base, .obj fs =>
      .obj ((base.map (fun kv => (kv.1, ((fs.lookup kv.1).getD kv.2)))) ++
            (fs.filter (fun kv => (base.lookup kv.1).isNone)))
  | t, _ => t

theorem Json.primEq_num_iff (x : Json) (n : Int) : x.primEq (.num n) = true ↔ x = .num n := by
  cases x <;> simp [Json.primEq]

theorem Json.primEq_str_iff (x : Json) (s : String) : x.primEq (.str s) = true ↔ x = .str s := by
  cases x <;> simp [Json.primEq]

theorem Json.get_eq_undef_of_not_hasField (j : Json) (k : String)
    (h : j.hasField k = false) : j.get k = .undefined := by
  cases j with
  | obj fs =>
    cases hl : fs.lookup k with
    | none => simp [Json.get, hl]
    | some v => simp [Json.hasField, hl] at h
  | undefined => rfl
  | null => rfl
  | bool b => rfl
  | num n => rfl
  | str s => rfl

theorem List.lookup_filter_of_key {α : Type} (fs : List (String × α)) (k : String)
    (p : String × α → Bool) (hp : ∀ v, p (k, v) = true) :
    (fs.filter p).lookup k = fs.lookup k := by
  induction fs with
  | nil => rfl
  | cons a fs ih =>
    obtain ⟨a1, a2⟩ := a
    by_cases hk : a1 = k
    · subst hk
      simp [List.filter, hp a2, List.lookup]
    · have hbeq : (k == a1) = false := by
        simp [beq_eq_false_iff_ne]
        exact fun h => hk h.symm
      cases hpa : p (a1, a2) <;> simp [List.filter, hpa, List.lookup, hbeq, ih]

theorem List.lookup_filter_of_key_none {α : Type} (fs : List (String × α))
    (k : String) (p : String × α → Bool) (hp : ∀ v, p (k, v) = false) :
    (fs.filter p).lookup k = none := by
  induction fs with
  | nil => rfl
  | cons a fs ih =>
    obtain ⟨a1, a2⟩ := a
    by_cases hk : a1 = k
    · subst hk
      simp [List.filter, hp a2, ih]
    · have hbeq : (k == a1) = false := by
        simp [beq_eq_false_iff_ne]
        exact fun h => hk h.symm
      cases hpa : p (a1, a2) <;> simp [List.filter, hpa, List.lookup, hbeq, ih]

/-!  Constants of the test suite (`src/unnamed/part_000`, lines 9-31). -/

/-- Number of times the suite re-runs a failing test before giving up
(`MAX_RETRIES = 10`, enforced by mocha's `this.retries`, outside the
handlers themselves). -/
def MAX_RETRIES : Nat := 10

/-- Fixed wait, in milliseconds, before a completion re-check or a
rate-limit retry (`RETRY_TIMEOUT = 10000`). -/
def RETRY_TIMEOUT : Nat := 10000

/-- Much longer fixed wait, in milliseconds, used while a certification
withdrawal settles (`WITHDRAWAL_TIMEOUT = 1 * 60 * 1000`). -/
def WITHDRAWAL_TIMEOUT : Nat := 1 * 60 * 1000

/-- Terminal skill-build status literal per API version
(`SKILL_READY = (v0 : SUCCESSFUL, v1 : SUCCEEDED)`). -/
def SKILL_READY : Json := .obj [("v0", .str "SUCCESSFUL"), ("v1", .str "SUCCEEDED")]

/-- Terminal model-build status literal per API version
(`MODEL_READY = (v0 : SUCCESS, v1 : SUCCEEDED)`). -/
def MODEL_READY : Json := .obj [("v0", .str "SUCCESS"), ("v1", .str "SUCCEEDED")]

/-- Outcome of one invocation of an error handler of the test suite:
`sleepRetry ms` sleeps `ms` milliseconds and then resolves a non-result, so
that the assertion fails and the outer mocha harness re-runs the test —
re-issuing the original call with the same parameters; `report s` surfaces
the value `s` with no sleep and no retry signal; `thrown` is a synchronous
TypeError raised inside the handler itself (a property read on `null` or
`undefined` in its logging line) — the promise chain rejects with it and no
sleep ever happens. -/
inductive HandlerOutcome where
  | sleepRetry (ms : Nat)
  | report (summary : Json)
  | thrown

/-- Whether the JavaScript property read `data.message` throws: it raises a
TypeError exactly when `data` is `null` or `undefined`; on any other value
(object, string, number, boolean) the read merely yields a value or
`undefined`. -/
def dataMessageReadThrows : Json → Bool
  | .undefined => true
  | .null => true
  | _ => false

/-- Outcome of one invocation of a completion-poll step (`waitOnSkill`,
`waitOnModel`): `sleepRetry ms` sleeps `ms` milliseconds after which the same
status check is re-issued by the outer harness; `done r` terminates the poll
with result `r`. -/
inductive WaitOutcome where
  | sleepRetry (ms : Nat)
  | done (response : Json)

/-- Extracts the error summary from an axios error response
(`errorSummary`, lines 42-49): the fields `status`, `statusText` and
`data`. -/
def errorSummary (error : Json) : Json :=
  .obj [("status", error.get "status"),
        ("statusText", error.get "statusText"),
        ("data", error.get "data")]

/-- Rate-limit backoff handler (`retry`, lines 53-64): on status strictly
equal to `429` its logging line first reads `summary.data.message` — a
synchronous TypeError when `data` is `null` or `undefined` — and otherwise
sleeps `RETRY_TIMEOUT` and signals a retry of the original call; on any
other status it returns the summary as-is (its `showError` path stringifies
the summary without dereferencing `data`). -/
def retry (error : Json) : HandlerOutcome :=
  let summary := errorSummary error
  if (summary.get "status").primEq (.num 429) then
    if dataMessageReadThrows (summary.get "data") then .thrown
    else .sleepRetry RETRY_TIMEOUT
  else .report summary

/-- Long-wait certification-withdrawal handler (`waitOnCertification`,
lines 66-75): on any status not strictly equal to `200` its logging line
reads `summary.data.message` — a synchronous TypeError when `data` is `null`
or `undefined` — and otherwise sleeps `WITHDRAWAL_TIMEOUT` and signals a
retry; on status `200` it returns the summary as the terminal result. -/
def waitOnCertification (error : Json) : HandlerOutcome :=
  let summary := errorSummary error
  if ¬ ((summary.get "status").primEq (.num 200)) then
    if dataMessageReadThrows (summary.get "data") then .thrown
    else .sleepRetry WITHDRAWAL_TIMEOUT
  else .report summary

/-- Skill-build completion poll step (`waitOnSkill`, lines 79-93): extracts
the status at the version-specific path, compares it with `SKILL_READY` for
the version; if different, sleeps `RETRY_TIMEOUT` (after which the harness
re-issues the same status check), otherwise terminates with the response. -/
def waitOnSkill (version : String) (response : Json) : WaitOutcome :=
  let status : Json :=
    if version = "v0" then ((response.get "manifest").get "lastModified").get "status"
    else if version = "v1" then ((response.get "manifest").get "lastUpdateRequest").get "status"
    else .undefined
  if ¬ (status.primEq (SKILL_READY.get version)) then .sleepRetry RETRY_TIMEOUT
  else .done response

/-- Model-build completion poll step (`waitOnModel`, lines 95-112): extracts
the status at the version-specific path; under `v1` it also deletes the
`eTag` field of the polled locale's entry in place; if the status differs
from `MODEL_READY` for the version, sleeps `RETRY_TIMEOUT` (after which the
harness re-issues the same status check), otherwise terminates with the
(possibly mutated) response. -/
def waitOnModel (version locale : String) (response : Json) : WaitOutcome :=
  let status : Json :=
    if version = "v0" then response.get "status"
    else if version = "v1" then
      (((response.get "interactionModel").get locale).get "lastUpdateRequest").get "status"
    else .undefined
  let response :=
    if version = "v1" then
      response.modifyField "interactionModel"
        (fun im => im.modifyField locale (fun lm => lm.deleteKey "eTag"))
    else response
  if ¬ (status.primEq (MODEL_READY.get version)) then .sleepRetry RETRY_TIMEOUT
  else .done response

/-- Whether one test attempt passes (`src/unnamed/part_000`): each test's
promise is `subject.then(successHandler, retry)`; a successful call hands the
response to the assertion, a failed call goes through the `retry` handler — a
429 sleeps and resolves a non-result (the assertion then fails), any other
error surfaces the summary to the assertion. -/
def attemptPasses (assert : Json → Bool) : Except Json Json → Bool
  | .ok r => assert r
  | .error e =>
    match retry e with
    | .sleepRetry _ => false
    | .report s => assert s
    | .thrown => false

/-!  Embedding of the client proper (`src/index.js`). -/

/-- HTTP verbs issued by the transport layer. -/
inductive Verb where
  | head
  | get
  | post
  | put
  | delete

/-- An HTTP request as built by the client: verb, URL (relative to the base
URL) and `payload` — the request body, or, for GET, the query-parameter
object. -/
structure Request where
  verb : Verb
  url : String
  payload : Json

/-- Fixed region table (`BASE_URLS`, lines 6-10). -/
def BASE_URLS : List (String × String) :=
  [("NA", "https://api.amazonalexa.com"),
   ("EU", "https://api.eu.amazonalexa.com"),
   ("FE", "https://api.fe.amazonalexa.com")]

/-- Primary region code (`DEFAULT_GEO_REGION = NA`, line 11). -/
def DEFAULT_GEO_REGION : String := "NA"

/-- Legacy API version literal (`VERSION_0`, line 13). -/
def VERSION_0 : String := "v0"

/-- Current API version literal (`VERSION_1`, line 14). -/
def VERSION_1 : String := "v1"

/-- Supported version list (`SUPPORTED_VERSIONS`, line 15). -/
def SUPPORTED_VERSIONS : List String := [VERSION_0, VERSION_1]

/-- Default version: the last element of the supported list
(`SUPPORTED_VERSIONS[SUPPORTED_VERSIONS.length - 1]`, line 16). -/
def DEFAULT_VERSION : String :=
  SUPPORTED_VERSIONS.getD (SUPPORTED_VERSIONS.length - 1) ""

/-- Version selected at construction (line 20):
`SUPPORTED_VERSIONS.includes(params.version) ? params.version : DEFAULT_VERSION`.
An absent `params.version` is the `none` case (`includes(undefined)` is
false). -/
def versionFor (paramsVersion : Option String) : String :=
  match paramsVersion with
  | some s => if SUPPORTED_VERSIONS.contains s then s else DEFAULT_VERSION
  | none => DEFAULT_VERSION

/-- Property names an object literal inherits from `Object.prototype`: for
these the JavaScript `in` operator answers true on `BASE_URLS` even though
they are not own keys of the table. -/
def OBJECT_PROTOTYPE_KEYS : List String :=
  ["constructor", "hasOwnProperty", "isPrototypeOf", "propertyIsEnumerable",
   "toLocaleString", "toString", "valueOf", "__proto__",
   "__defineGetter__", "__defineSetter__", "__lookupGetter__", "__lookupSetter__"]

/-- The JavaScript `in` operator on an object literal with own-key table
`own`: true for an own key or for a property inherited from
`Object.prototype`. -/
def inOperator (k : String) (own : List (String × String)) : Bool :=
  (own.lookup k).isSome || OBJECT_PROTOTYPE_KEYS.contains k

/-- Value of the property read `BASE_URLS[key]`: one of the table's URL
strings for an own key, or the member inherited from `Object.prototype`
(a function or object, not a URL string) for an inherited key. -/
inductive BaseUrlValue where
  | url (s : String)
  | inherited (name : String)

/-- The indexed read `BASE_URLS[key]`: an own key yields its URL string; any
other key yields the inherited `Object.prototype` member of that name (the
source only indexes with keys the `in` operator accepted, so the key is then
inherited). -/
def BASE_URLS_read (key : String) : BaseUrlValue :=
  match BASE_URLS.lookup key with
  | some u => .url u
  | none => .inherited key

/-- Base URL selected at construction (line 25):
`BASE_URLS[params.region in BASE_URLS ? params.region : DEFAULT_GEO_REGION]`.
The `in` test consults the prototype chain (`inOperator`); an absent
`params.region` is the `none` case (`"undefined" in BASE_URLS` is false). -/
def baseUrlFor (paramsRegion : Option String) : BaseUrlValue :=
  let key : String :=
    match paramsRegion with
    | some r => if inOperator r BASE_URLS then r else DEFAULT_GEO_REGION
    | none => DEFAULT_GEO_REGION
  BASE_URLS_read key

/-- The construction-time configuration of a client instance
(`alexaSMAPI(params)`, lines 18-30): the version and the transport base URL,
both fixed at construction — nothing in the source ever reassigns
`smapi.version` or the axios instance's `baseURL`. -/
structure ClientConfig where
  version : String
  baseURL : BaseUrlValue

/-- Client construction (`alexaSMAPI`, lines 18-30), restricted to the
configuration it fixes; `params` may omit either field. -/
def alexaSMAPI (paramsVersion paramsRegion : Option String) : ClientConfig :=
  { version := versionFor paramsVersion, baseURL := baseUrlFor paramsRegion }

/-- An axios success response as seen by the normalizers: its headers object
and its parsed body. -/
structure AxiosResponse where
  headers : Json
  data : Json

/-- Success-path normalization of `rest.head` (lines 31-35): an object with
exactly the `location` and `etag` response headers; the body is never
consulted. -/
def restHeadResult (response : AxiosResponse) : Json :=
  .obj [("location", response.headers.get "location"),
        ("etag", response.headers.get "etag")]

/-- Success-path normalization of `rest.put` (lines 46-50): identical in
shape to `rest.head` — only the `location` and `etag` headers, never the
body. -/
def restPutResult (response : AxiosResponse) : Json :=
  .obj [("location", response.headers.get "location"),
        ("etag", response.headers.get "etag")]

/-- Success-path normalization of `rest.post` (lines 41-45):
`Object.assign(emptyObject, locationEtagFromHeaders, response.data)`. -/
def restPostResult (response : AxiosResponse) : Json :=
  Json.assign
    (.obj [("location", response.headers.get "location"),
           ("etag", response.headers.get "etag")])
    response.data

/-- Request built by `rest.get(url, parameters)` (lines 36-40): forwards
`parameters` as the query object, defaulting to an empty object when the
argument is `undefined`. -/
def restGetRequest (url : String) (parameters : Json) : Request :=
  { verb := .get, url := url,
    payload := match parameters with
      | .undefined => .obj []
      | p => p }

/-- Interaction-model update (`interactionModel.update`, lines 142-149).
Under `v0` the source reassigns `interactionModel = locale; locale = stage`
(the legacy positional remap) and POSTs to the single-stage URL; under `v1`
it PUTs to the staged URL.  A call that passes only three arguments leaves
the fourth slot `undefined`. -/
def interactionModelUpdate (version : String)
    (skillId stage locale interactionModel : Json) : Option Request :=
  if version = VERSION_0 then
    let interactionModel := locale
    let locale := stage
    some { verb := .post,
           url := "/v0/skills/" ++ skillId.jstr ++ "/interactionModel/locales/" ++ locale.jstr,
           payload := .obj [("interactionModel", interactionModel)] }
  else if version = VERSION_1 then
    some { verb := .put,
           url := "/v1/skills/" ++ skillId.jstr ++ "/stages/" ++ stage.jstr ++
                  "/interactionModel/locales/" ++ locale.jstr,
           payload := .obj [("interactionModel", interactionModel)] }
  else none

/-- The legacy "update interaction model" operation written directly from the
spec's wording, with no stage parameter at all: POST to the legacy
single-stage URL for `(skillId, locale)` with body wrapping the payload under
the key `interactionModel`.  Used to compare the remapped call against the
spec's direct form. -/
def legacyInteractionModelUpdateDirect (skillId locale interactionModel : Json) : Request :=
  { verb := .post,
    url := "/v0/skills/" ++ skillId.jstr ++ "/interactionModel/locales/" ++ locale.jstr,
    payload := .obj [("interactionModel", interactionModel)] }

/-- Intent-request history listing (`intentRequests.list`, lines 202-208):
reads `params.skillId`, then deletes that property from the caller's own
object, then forwards the remaining object as query parameters.  The second
component is the caller's object as it stands after the call (the source
mutates it in place). -/
def intentRequestsList (params : Json) : Request × Json :=
  let skillId := params.get "skillId"
  let params' := params.deleteKey "skillId"
  (restGetRequest ("/v1/skills/" ++ skillId.jstr ++ "/history/intentRequests") params',
   params')

/-- The process-wide axios defaults mutated by the configuration calls:
the shared `Authorization` header and the default base URL. -/
structure AxiosDefaults where
  authorization : Option String
  baseURL : Option String

/-- Token configuration (`smapi.refreshToken`, lines 58-63): any argument
that is not a non-empty string raises a synchronous `Error` (modelled by
`Except.error`, in contrast to the promise-rejection path of the remote
operations); a non-empty string is stored as the shared `Authorization`
header used by all subsequent requests. -/
def refreshToken (st : AxiosDefaults) (token : Json) : Except String AxiosDefaults :=
  match token with
  | .str s =>
      if s.length = 0 then .error "Invalid token specified!"
      else .ok { st with authorization := some s }
  | _ => .error "Invalid token specified!"

/-- Base-URL configuration (`smapi.setBaseUrl`, lines 65-70): any argument
that is not a non-empty string raises a synchronous `Error`; a non-empty
string is stored as the shared default base URL. -/
def setBaseUrl (st : AxiosDefaults) (url : Json) : Except String AxiosDefaults :=
  match url with
  | .str s =>
      if s.length = 0 then .error "Invalid base url specified!"
      else .ok { st with baseURL := some s }
  | _ => .error "Invalid base url specified!"

/-- Whether a JavaScript value is a non-empty string — the validity test
`typeof x === string && x.length > 0` shared by both configuration calls. -/
def isNonEmptyString : Json → Bool
  | .str s => s.length != 0
  | _ => false

/-- Requests issued by one mocha test under `this.retries(budget)`
(`src/unnamed/part_000`, lines 114-117): each attempt re-runs `beforeEach`,
issuing the same request `req` (its parameters are fixed by the enclosing
closure), and consumes the next transport result; a failing attempt is
re-run while retry budget remains. -/
def issuedRequests (req : Request) (assert : Json → Bool) :
    List (Except Json Json) → Nat → List Request
  | [], _ => []
  | r :: rest, budget =>
    req :: (if attemptPasses assert r then [] else
      match budget with
      | 0 => []
      | b + 1 => issuedRequests req assert rest b)


/-!  Theorems. -/

/-- Response visible in the claim C1 counterexample: a current-version model
status whose polled locale carries an `eTag` field next to its
`lastUpdateRequest`. -/
def etagModelResponse : Json :=
  .obj [("interactionModel", .obj [("en-US",
    .obj [("lastUpdateRequest", .obj [("status", .str "SUCCEEDED")]),
          ("eTag", .str "4b20e8f4")])])]

/-- Value actually returned for `etagModelResponse`: the `eTag` field of the
polled locale has been deleted. -/
def etagModelResponseReturned : Json :=
  .obj [("interactionModel", .obj [("en-US",
    .obj [("lastUpdateRequest", .obj [("status", .str "SUCCEEDED")])])])]

/-- Claim C1, counterexample: under the current version the status of
`etagModelResponse` equals the terminal-success literal, yet the poll step
returns a response different from its input — the polled locale's `eTag`
field has been deleted in place — so the poller does not return the response
unchanged. -/
theorem waitOnModel_v1_mutates_terminal_response :
    ((((etagModelResponse.get "interactionModel").get "en-US").get
        "lastUpdateRequest").get "status" = MODEL_READY.get "v1")
  ∧ waitOnModel "v1" "en-US" etagModelResponse = .done etagModelResponseReturned
  ∧ etagModelResponseReturned ≠ etagModelResponse := by
  refine ⟨rfl, rfl, ?_⟩
  simp [etagModelResponse, etagModelResponseReturned]

/-- Claim C1 (amended): each build/model poll step extracts the status at
the version-specific path (skills: `manifest.lastModified.status` under `v0`,
`manifest.lastUpdateRequest.status` under `v1`; models: `status` under `v0`,
`interactionModel[locale].lastUpdateRequest.status` under `v1`), compares it
strictly against that version's terminal literal from the value table
(`SUCCESSFUL` / `SUCCEEDED` for skills, `SUCCESS` / `SUCCEEDED` for models);
if different it sleeps the fixed interval `RETRY_TIMEOUT` after which the
same status check is re-issued, and if equal it terminates with the
response — unchanged, except that the current-version model check returns
the response with the polled locale's `eTag` field removed.  The outcome is
a function of the response alone and its sleep interval is always the same
constant: no exponential backoff and no internal attempt counter. -/
theorem completion_poll_version_paths (locale : String) (r : Json) :
    (waitOnSkill "v0" r =
      if ((((r.get "manifest").get "lastModified").get "status").primEq
            (.str "SUCCESSFUL")) = true
      then .done r else .sleepRetry RETRY_TIMEOUT)
  ∧ (waitOnSkill "v1" r =
      if ((((r.get "manifest").get "lastUpdateRequest").get "status").primEq
            (.str "SUCCEEDED")) = true
      then .done r else .sleepRetry RETRY_TIMEOUT)
  ∧ (waitOnModel "v0" locale r =
      if ((r.get "status").primEq (.str "SUCCESS")) = true
      then .done r else .sleepRetry RETRY_TIMEOUT)
  ∧ (waitOnModel "v1" locale r =
      if (((((r.get "interactionModel").get locale).get "lastUpdateRequest").get
             "status").primEq (.str "SUCCEEDED")) = true
      then .done (r.modifyField "interactionModel"
             (fun im => im.modifyField locale (fun lm => lm.deleteKey "eTag")))
      else .sleepRetry RETRY_TIMEOUT) := by
  refine ⟨?_, ?_, ?_, ?_⟩
  · have hrfl : waitOnSkill "v0" r =
        if ¬ ((((r.get "manifest").get "lastModified").get "status").primEq
               (.str "SUCCESSFUL"))
        then .sleepRetry RETRY_TIMEOUT else .done r := rfl
    rw [hrfl]
    cases h : (((r.get "manifest").get "lastModified").get "status").primEq
        (.str "SUCCESSFUL") <;> simp [h]
  · have hrfl : waitOnSkill "v1" r =
        if ¬ ((((r.get "manifest").get "lastUpdateRequest").get "status").primEq
               (.str "SUCCEEDED"))
        then .sleepRetry RETRY_TIMEOUT else .done r := rfl
    rw [hrfl]
    cases h : (((r.get "manifest").get "lastUpdateRequest").get "status").primEq
        (.str "SUCCEEDED") <;> simp [h]
  · have hrfl : waitOnModel "v0" locale r =
        if ¬ ((r.get "status").primEq (.str "SUCCESS"))
        then .sleepRetry RETRY_TIMEOUT else .done r := rfl
    rw [hrfl]
    cases h : ((r.get "status").primEq (.str "SUCCESS")) <;> simp [h]
  · have hrfl : waitOnModel "v1" locale r =
        if ¬ (((((r.get "interactionModel").get locale).get
                 "lastUpdateRequest").get "status").primEq (.str "SUCCEEDED"))
        then .sleepRetry RETRY_TIMEOUT
        else .done (r.modifyField "interactionModel"
               (fun im => im.modifyField locale (fun lm => lm.deleteKey "eTag"))) := rfl
    rw [hrfl]
    cases h : ((((r.get "interactionModel").get locale).get
        "lastUpdateRequest").get "status").primEq (.str "SUCCEEDED") <;> simp [h]

/-- Claim C2, counterexample: a concrete Operation Error with status `429`
and `data` `null` does not make the handler sleep and signal a retry — its
logging line reads `summary.data.message` first and throws a TypeError
synchronously, so the 429 branch never reaches the sleep. -/
theorem retry_429_null_data_throws :
    (errorSummary (.obj [("status", .num 429), ("data", .null)])).get "status"
      = .num 429
  ∧ retry (.obj [("status", .num 429), ("data", .null)]) = .thrown
  ∧ retry (.obj [("status", .num 429), ("data", .null)])
      ≠ .sleepRetry RETRY_TIMEOUT := by
  refine ⟨rfl, rfl, ?_⟩
  intro h
  cases h

/-- Claim C2 (amended): for an Operation Error whose status is strictly
`429` and whose `data` can be dereferenced (is neither `null` nor
`undefined`), the handler sleeps the fixed interval `RETRY_TIMEOUT` and
signals a retry of the original call; with status `429` but `data` `null`
or absent, the handler's logging line throws a TypeError synchronously and
no sleep happens; any other status is reported as the summary of `status`,
`statusText` and `data`, as-is, with no sleep and no retry signal; and a
test attempt failing with such a dereferenceable 429 is followed by exactly
one re-issue of the original request, unchanged, before a passing attempt
stops the harness. -/
theorem retry_rate_limit_backoff (e r2 : Json) (req : Request)
    (assert : Json → Bool) (rs : List (Except Json Json)) (b : Nat) :
    ((errorSummary e).get "status" = .num 429 →
       dataMessageReadThrows ((errorSummary e).get "data") = false →
       retry e = .sleepRetry RETRY_TIMEOUT)
  ∧ ((errorSummary e).get "status" = .num 429 →
       dataMessageReadThrows ((errorSummary e).get "data") = true →
       retry e = .thrown)
  ∧ (((errorSummary e).get "status").primEq (.num 429) = false →
       retry e = .report (errorSummary e))
  ∧ ((errorSummary e).get "status" = .num 429 →
       dataMessageReadThrows ((errorSummary e).get "data") = false →
       assert r2 = true →
       issuedRequests req assert (.error e :: .ok r2 :: rs) (b + 1) = [req, req]) := by
  refine ⟨?_, ?_, ?_, ?_⟩
  · intro h hd
    simp [retry, h, Json.primEq, hd]
  · intro h hd
    simp [retry, h, Json.primEq, hd]
  · intro h
    simp [retry, h]
  · intro h hd ha
    simp [issuedRequests, attemptPasses, retry, h, Json.primEq, hd, ha]

/-- Claim C2, witness: a concrete 429 error with an object `data` triggers
the backoff retry, a concrete 503 error is reported as its summary, and a
concrete 429-then-success run issues the original request exactly twice. -/
theorem retry_rate_limit_backoff_witness :
    retry (.obj [("status", .num 429),
                 ("data", .obj [("message", .str "Too Many Requests")])])
      = .sleepRetry RETRY_TIMEOUT
  ∧ retry (.obj [("status", .num 503), ("statusText", .str "Unavailable")])
      = .report (errorSummary
          (.obj [("status", .num 503), ("statusText", .str "Unavailable")]))
  ∧ issuedRequests { verb := .get, url := "/v1/vendors", payload := .obj [] }
      (fun r => r.hasField "vendors")
      [.error (.obj [("status", .num 429),
                     ("data", .obj [("message", .str "Too Many Requests")])]),
       .ok (.obj [("vendors", .obj [])])]
      MAX_RETRIES
      = [{ verb := .get, url := "/v1/vendors", payload := .obj [] },
         { verb := .get, url := "/v1/vendors", payload := .obj [] }] := by
  refine ⟨?_, ?_, ?_⟩
  · exact (retry_rate_limit_backoff
      (.obj [("status", .num 429),
             ("data", .obj [("message", .str "Too Many Requests")])])
      (.obj []) { verb := .get, url := "/v1/vendors", payload := .obj [] }
      (fun r => r.hasField "vendors") [] 0).1 rfl rfl
  · exact (retry_rate_limit_backoff
      (.obj [("status", .num 503), ("statusText", .str "Unavailable")])
      (.obj []) { verb := .get, url := "/v1/vendors", payload := .obj [] }
      (fun r => r.hasField "vendors") [] 0).2.2.1 rfl
  · exact (retry_rate_limit_backoff
      (.obj [("status", .num 429),
             ("data", .obj [("message", .str "Too Many Requests")])])
      (.obj [("vendors", .obj [])])
      { verb := .get, url := "/v1/vendors", payload := .obj [] }
      (fun r => r.hasField "vendors") [] 9).2.2.2 rfl rfl rfl

/-- Claim C3, counterexample: a concrete non-200 Operation Error whose
payload has no `data` does not sleep the long interval — the handler's
logging line reads `summary.data.message` and throws a TypeError
synchronously, so the handler neither terminates nor sleeps; the claim's
"regardless of the error payload's content" fails. -/
theorem waitOnCertification_null_data_throws :
    ((errorSummary (.obj [("status", .num 400)])).get "status").primEq (.num 200)
      = false
  ∧ waitOnCertification (.obj [("status", .num 400)]) = .thrown
  ∧ waitOnCertification (.obj [("status", .num 400)])
      ≠ .sleepRetry WITHDRAWAL_TIMEOUT := by
  refine ⟨rfl, rfl, ?_⟩
  intro h
  cases h

/-- Claim C3 (amended): the certification-withdrawal handler returns the
error summary as the terminal result exactly when the status is strictly
`200`; for every other status value whose `data` can be dereferenced (is
neither `null` nor `undefined`), it sleeps the much longer fixed interval
`WITHDRAWAL_TIMEOUT` — one minute, longer than the ordinary retry
interval — and signals a retry; when the status is not `200` and `data` is
`null` or absent, the handler's logging line instead throws a TypeError
synchronously before any sleep. -/
theorem waitOnCertification_long_wait (e : Json) :
    ((errorSummary e).get "status" = .num 200 →
       waitOnCertification e = .report (errorSummary e))
  ∧ (((errorSummary e).get "status").primEq (.num 200) = false →
       dataMessageReadThrows ((errorSummary e).get "data") = false →
       waitOnCertification e = .sleepRetry WITHDRAWAL_TIMEOUT)
  ∧ (((errorSummary e).get "status").primEq (.num 200) = false →
       dataMessageReadThrows ((errorSummary e).get "data") = true →
       waitOnCertification e = .thrown)
  ∧ WITHDRAWAL_TIMEOUT = 60 * 1000
  ∧ RETRY_TIMEOUT < WITHDRAWAL_TIMEOUT := by
  refine ⟨?_, ?_, ?_, rfl, by norm_num [RETRY_TIMEOUT, WITHDRAWAL_TIMEOUT]⟩
  · intro h
    simp [waitOnCertification, h, Json.primEq]
  · intro h hd
    simp [waitOnCertification, h, hd]
  · intro h hd
    simp [waitOnCertification, h, hd]

/-- Claim C3, witness: a concrete status-200 outcome is returned as terminal
success, a concrete status-400 error with an object payload sleeps the
one-minute interval and retries, and a concrete status-400 error with
`data` `null` throws. -/
theorem waitOnCertification_long_wait_witness :
    waitOnCertification (.obj [("status", .num 200)])
      = .report (errorSummary (.obj [("status", .num 200)]))
  ∧ waitOnCertification
        (.obj [("status", .num 400),
               ("data", .obj [("message", .str "cannot withdraw yet")])])
      = .sleepRetry WITHDRAWAL_TIMEOUT
  ∧ waitOnCertification (.obj [("status", .num 400), ("data", .null)])
      = .thrown := by
  exact ⟨(waitOnCertification_long_wait (.obj [("status", .num 200)])).1 rfl,
         (waitOnCertification_long_wait
           (.obj [("status", .num 400),
                  ("data", .obj [("message", .str "cannot withdraw yet")])])).2.1
           rfl rfl,
         (waitOnCertification_long_wait
           (.obj [("status", .num 400), ("data", .null)])).2.2.1 rfl rfl⟩

/-- Claim C4: under the legacy version, calling the interaction-model update
with `(skillId, locale, payload)` in the first three positional slots (the
fourth slot therefore `undefined`) builds exactly the request of the direct
legacy operation with no stage parameter: POST to
`/v0/skills/(skillId)/interactionModel/locales/(locale)` with the body
wrapping `payload` under the key `interactionModel` — the positional remap is
transparent and loss-free. -/
theorem interactionModelUpdate_v0_remap (skillId locale payload : Json) :
    interactionModelUpdate VERSION_0 skillId locale payload .undefined
      = some (legacyInteractionModelUpdateDirect skillId locale payload) := rfl

theorem List.lookup_append_str {α : Type} (l₁ l₂ : List (String × α)) (k : String) :
    (l₁ ++ l₂).lookup k = ((l₁.lookup k).orElse (fun _ => l₂.lookup k)) := by
  induction l₁ with
  | nil => simp [List.lookup]
  | cons a l ih => cases hk : k == a.1 <;> simp [List.lookup, hk, ih]

/-- Claim C5: for every successful HEAD and PUT response the normalized
result is exactly the object with the two header-derived fields `location`
and `etag`; a missing header makes the corresponding field `undefined`
rather than an error; the result holds no other field; and the response
body never enters the result — normalization is invariant under any change
of body, even when the transport returns one. -/
theorem rest_head_put_headers_only (h d d' : Json) (k : String) :
    restHeadResult ⟨h, d⟩
      = .obj [("location", h.get "location"), ("etag", h.get "etag")]
  ∧ restPutResult ⟨h, d⟩
      = .obj [("location", h.get "location"), ("etag", h.get "etag")]
  ∧ (h.hasField "location" = false → (restHeadResult ⟨h, d⟩).get "location" = .undefined)
  ∧ (h.hasField "etag" = false → (restHeadResult ⟨h, d⟩).get "etag" = .undefined)
  ∧ (h.hasField "location" = false → (restPutResult ⟨h, d⟩).get "location" = .undefined)
  ∧ (h.hasField "etag" = false → (restPutResult ⟨h, d⟩).get "etag" = .undefined)
  ∧ (k ≠ "location" → k ≠ "etag" → (restHeadResult ⟨h, d⟩).get k = .undefined)
  ∧ restHeadResult ⟨h, d⟩ = restHeadResult ⟨h, d'⟩
  ∧ restPutResult ⟨h, d⟩ = restPutResult ⟨h, d'⟩ := by
  refine ⟨rfl, rfl, ?_, ?_, ?_, ?_, ?_, rfl, rfl⟩
  · intro hf
    exact (rfl : (restHeadResult ⟨h, d⟩).get "location" = h.get "location").trans
      (Json.get_eq_undef_of_not_hasField h "location" hf)
  · intro hf
    exact (rfl : (restHeadResult ⟨h, d⟩).get "etag" = h.get "etag").trans
      (Json.get_eq_undef_of_not_hasField h "etag" hf)
  · intro hf
    exact (rfl : (restPutResult ⟨h, d⟩).get "location" = h.get "location").trans
      (Json.get_eq_undef_of_not_hasField h "location" hf)
  · intro hf
    exact (rfl : (restPutResult ⟨h, d⟩).get "etag" = h.get "etag").trans
      (Json.get_eq_undef_of_not_hasField h "etag" hf)
  · intro h1 h2
    have b1 : (k == "location") = false := by simp [h1]
    have b2 : (k == "etag") = false := by simp [h2]
    simp [restHeadResult, Json.get, List.lookup, b1, b2]

/-- Claim C5, witness: a concrete HEAD response with only an `etag` header
and a non-empty body normalizes to `location` `undefined`, the header's
`etag`, nothing else, and identically with the body dropped. -/
theorem rest_head_put_headers_only_witness :
    restHeadResult ⟨.obj [("etag", .str "W4711")], .obj [("ignored", .bool true)]⟩
      = .obj [("location", .undefined), ("etag", .str "W4711")]
  ∧ (restHeadResult ⟨.obj [("etag", .str "W4711")],
       .obj [("ignored", .bool true)]⟩).get "location" = .undefined
  ∧ (restHeadResult ⟨.obj [("etag", .str "W4711")],
       .obj [("ignored", .bool true)]⟩).get "ignored" = .undefined
  ∧ restHeadResult ⟨.obj [("etag", .str "W4711")], .obj [("ignored", .bool true)]⟩
      = restHeadResult ⟨.obj [("etag", .str "W4711")], .undefined⟩ := by
  refine ⟨?_, ?_, ?_, ?_⟩
  · exact (rest_head_put_headers_only (.obj [("etag", .str "W4711")])
      (.obj [("ignored", .bool true)]) .undefined "ignored").1
  · exact (rest_head_put_headers_only (.obj [("etag", .str "W4711")])
      (.obj [("ignored", .bool true)]) .undefined "ignored").2.2.1 rfl
  · exact (rest_head_put_headers_only (.obj [("etag", .str "W4711")])
      (.obj [("ignored", .bool true)]) .undefined "ignored").2.2.2.2.2.2.1
      (by decide) (by decide)
  · exact (rest_head_put_headers_only (.obj [("etag", .str "W4711")])
      (.obj [("ignored", .bool true)]) .undefined "ignored").2.2.2.2.2.2.2.1

theorem Json.get_assign_two (hl he : Json) (fs : List (String × Json)) (k : String) :
    (Json.assign (.obj [("location", hl), ("etag", he)]) (.obj fs)).get k
      = (fs.lookup k).getD
          ((Json.obj [("location", hl), ("etag", he)]).get k) := by
  show ((([("location", (fs.lookup "location").getD hl),
           ("etag", (fs.lookup "etag").getD he)] : List (String × Json)) ++
          fs.filter (fun kv =>
            (List.lookup kv.1
              ([("location", hl), ("etag", he)] : List (String × Json))).isNone)).lookup
            k).getD .undefined
      = (fs.lookup k).getD
          ((Json.obj [("location", hl), ("etag", he)]).get k)
  rw [List.lookup_append_str]
  by_cases hk1 : k = "location"
  · subst hk1
    cases fs.lookup "location" <;> simp [List.lookup, Json.get]
  · by_cases hk2 : k = "etag"
    · subst hk2
      cases fs.lookup "etag" <;> simp [List.lookup, Json.get]
    · have b1 : (k == "location") = false := by simp [hk1]
      have b2 : (k == "etag") = false := by simp [hk2]
      have hfil : (fs.filter (fun kv =>
          (List.lookup kv.1
            ([("location", hl), ("etag", he)] : List (String × Json))).isNone)).lookup k
          = fs.lookup k :=
        List.lookup_filter_of_key fs k _ (fun v => by simp [List.lookup, b1, b2])
      rw [show (List.lookup k
            ([("location", (fs.lookup "location").getD hl),
              ("etag", (fs.lookup "etag").getD he)] : List (String × Json))) = none
          from by simp [List.lookup, b1, b2]]
      have hbase : (Json.obj [("location", hl), ("etag", he)]).get k = .undefined := by
        simp [Json.get, List.lookup, b1, b2]
      rw [hbase]
      show (List.lookup k (fs.filter (fun kv =>
          (List.lookup kv.1
            ([("location", hl), ("etag", he)] : List (String × Json))).isNone))).getD .undefined
        = (fs.lookup k).getD .undefined
      rw [hfil]

/-- Claim C6: for every successful POST response the normalized result reads,
at every key, the JSON body's value when the body has that key, and otherwise
the value of the header-derived object with exactly the fields `location` and
`etag` — i.e. the result is the header-derived pair merged with the body at
the top level, the body's keys taking precedence on collision. -/
theorem rest_post_merge_precedence (h : Json) (fs : List (String × Json)) (k : String) :
    (restPostResult ⟨h, .obj fs⟩).get k
      = (fs.lookup k).getD
          ((Json.obj [("location", h.get "location"), ("etag", h.get "etag")]).get k) :=
  Json.get_assign_two (h.get "location") (h.get "etag") fs k

/-- Claim C7, counterexample: the region value `toString` is not one of the
three codes, yet the constructed client's base URL is not the primary
region's URL — the JavaScript `in` operator finds `toString` on the
prototype chain of the table, so the indexed read yields the inherited
member instead of falling back. -/
theorem region_inherited_key_no_fallback :
    BASE_URLS.lookup "toString" = none
  ∧ (alexaSMAPI none (some "toString")).baseURL = .inherited "toString"
  ∧ (alexaSMAPI none (some "toString")).baseURL
      ≠ .url "https://api.amazonalexa.com" := by
  refine ⟨rfl, rfl, ?_⟩
  intro h
  cases h

/-- Claim C7 (amended): the client's base URL is determined at construction
by the fixed three-entry region table; each of the three codes maps to its
URL; an absent region, or a region value that is neither one of the three
codes nor the name of a property inherited from `Object.prototype`, falls
back to the primary region's base URL; a region value naming an inherited
`Object.prototype` property instead selects that inherited member (not a
URL string) as the base URL. -/
theorem region_table_spec (v : Option String) (r : String) :
    BASE_URLS.length = 3
  ∧ (alexaSMAPI v (some "NA")).baseURL = .url "https://api.amazonalexa.com"
  ∧ (alexaSMAPI v (some "EU")).baseURL = .url "https://api.eu.amazonalexa.com"
  ∧ (alexaSMAPI v (some "FE")).baseURL = .url "https://api.fe.amazonalexa.com"
  ∧ (BASE_URLS.lookup r = none → OBJECT_PROTOTYPE_KEYS.contains r = false →
       (alexaSMAPI v (some r)).baseURL = .url "https://api.amazonalexa.com")
  ∧ (BASE_URLS.lookup r = none → OBJECT_PROTOTYPE_KEYS.contains r = true →
       (alexaSMAPI v (some r)).baseURL = .inherited r)
  ∧ (alexaSMAPI v none).baseURL = .url "https://api.amazonalexa.com"
  ∧ (alexaSMAPI v none).baseURL = (alexaSMAPI v (some DEFAULT_GEO_REGION)).baseURL := by
  refine ⟨rfl, rfl, rfl, rfl, ?_, ?_, rfl, rfl⟩
  · intro hr hc
    have hin : inOperator r BASE_URLS = false := by
      show ((BASE_URLS.lookup r).isSome || OBJECT_PROTOTYPE_KEYS.contains r) = false
      rw [hr, hc]
      rfl
    show BASE_URLS_read (if inOperator r BASE_URLS = true then r else DEFAULT_GEO_REGION)
        = .url "https://api.amazonalexa.com"
    rw [hin]
    rfl
  · intro hr hc
    have hin : inOperator r BASE_URLS = true := by
      show ((BASE_URLS.lookup r).isSome || OBJECT_PROTOTYPE_KEYS.contains r) = true
      rw [hc, Bool.or_true]
    show BASE_URLS_read (if inOperator r BASE_URLS = true then r else DEFAULT_GEO_REGION)
        = .inherited r
    rw [hin]
    show (match BASE_URLS.lookup r with
          | some u => BaseUrlValue.url u
          | none => BaseUrlValue.inherited r) = .inherited r
    rw [hr]

/-- Claim C7, witness: the concrete non-code, non-inherited region `SA`
falls back to the primary region's base URL, while the concrete inherited
name `valueOf` selects the inherited member. -/
theorem region_table_spec_witness :
    BASE_URLS.lookup "SA" = none
  ∧ OBJECT_PROTOTYPE_KEYS.contains "SA" = false
  ∧ (alexaSMAPI none (some "SA")).baseURL = .url "https://api.amazonalexa.com"
  ∧ BASE_URLS.lookup "valueOf" = none
  ∧ OBJECT_PROTOTYPE_KEYS.contains "valueOf" = true
  ∧ (alexaSMAPI none (some "valueOf")).baseURL = .inherited "valueOf" :=
  ⟨rfl, rfl, (region_table_spec none "SA").2.2.2.2.1 rfl rfl,
   rfl, rfl, (region_table_spec none "valueOf").2.2.2.2.2.1 rfl rfl⟩

/-- Claim C8: the client's version is fixed at construction: it equals the
requested version whenever that is one of the two supported values, defaults
to the newest supported version `v1` when the requested version is absent or
unrecognized, and is always a member of the supported-version set. -/
theorem version_selection_spec (v reg : Option String) (s : String) :
    (SUPPORTED_VERSIONS.contains s = true → (alexaSMAPI (some s) reg).version = s)
  ∧ (SUPPORTED_VERSIONS.contains s = false → (alexaSMAPI (some s) reg).version = VERSION_1)
  ∧ (alexaSMAPI none reg).version = VERSION_1
  ∧ DEFAULT_VERSION = VERSION_1
  ∧ SUPPORTED_VERSIONS.contains (alexaSMAPI v reg).version = true := by
  refine ⟨?_, ?_, rfl, rfl, ?_⟩
  · intro hs
    exact if_pos hs
  · intro hs
    exact if_neg (by intro h; rw [hs] at h; cases h)
  · cases v with
    | none => rfl
    | some t =>
      cases hs : SUPPORTED_VERSIONS.contains t with
      | true =>
        have ht : (alexaSMAPI (some t) reg).version = t := if_pos hs
        rw [ht]
        exact hs
      | false =>
        have ht : (alexaSMAPI (some t) reg).version = VERSION_1 :=
          if_neg (by intro h; rw [hs] at h; cases h)
        rw [ht]
        rfl

/-- Claim C8, witness: requesting the supported `v0` yields `v0`; requesting
the unrecognized `v2` yields the default `v1`. -/
theorem version_selection_spec_witness :
    SUPPORTED_VERSIONS.contains "v0" = true
  ∧ (alexaSMAPI (some "v0") none).version = "v0"
  ∧ SUPPORTED_VERSIONS.contains "v2" = false
  ∧ (alexaSMAPI (some "v2") none).version = VERSION_1 :=
  ⟨rfl, (version_selection_spec (some "v0") none "v0").1 rfl, rfl,
   (version_selection_spec (some "v2") none "v2").2.1 rfl⟩

/-- Claim C9: the configuration calls validate synchronously: an argument
that is not a non-empty string makes `refreshToken` (resp. `setBaseUrl`)
raise its error immediately — modelled as `Except.error`, a synchronous
throw, distinct from the promise-rejection path of remote operations — and a
non-empty string argument does not throw and stores the value as the shared
`Authorization` header (resp. the shared base URL) used by subsequent
calls. -/
theorem config_calls_sync_validation (st : AxiosDefaults) (j : Json) (s : String) :
    (isNonEmptyString j = false → refreshToken st j = .error "Invalid token specified!")
  ∧ (isNonEmptyString j = false → setBaseUrl st j = .error "Invalid base url specified!")
  ∧ (isNonEmptyString (.str s) = true →
       refreshToken st (.str s) = .ok { st with authorization := some s })
  ∧ (isNonEmptyString (.str s) = true →
       setBaseUrl st (.str s) = .ok { st with baseURL := some s }) := by
  refine ⟨?_, ?_, ?_, ?_⟩
  · intro hj
    cases j with
    | str t =>
      have ht : t.length = 0 := by simpa [isNonEmptyString] using hj
      simp [refreshToken, ht]
    | undefined => rfl
    | null => rfl
    | bool b => rfl
    | num n => rfl
    | obj fs => rfl
  · intro hj
    cases j with
    | str t =>
      have ht : t.length = 0 := by simpa [isNonEmptyString] using hj
      simp [setBaseUrl, ht]
    | undefined => rfl
    | null => rfl
    | bool b => rfl
    | num n => rfl
    | obj fs => rfl
  · intro hs
    have ht : ¬ (s.length = 0) := by simpa [isNonEmptyString] using hs
    simp [refreshToken, ht]
  · intro hs
    have ht : ¬ (s.length = 0) := by simpa [isNonEmptyString] using hs
    simp [setBaseUrl, ht]

/-- Claim C9, witness: a number and the empty string throw the respective
errors; concrete non-empty strings are stored in the shared defaults. -/
theorem config_calls_sync_validation_witness :
    refreshToken ⟨none, none⟩ (.num 42) = .error "Invalid token specified!"
  ∧ setBaseUrl ⟨none, none⟩ (.str "") = .error "Invalid base url specified!"
  ∧ refreshToken ⟨none, none⟩ (.str "Bearer tok") = .ok ⟨some "Bearer tok", none⟩
  ∧ setBaseUrl ⟨some "t", none⟩ (.str "https://api.eu.amazonalexa.com")
      = .ok ⟨some "t", some "https://api.eu.amazonalexa.com"⟩ :=
  ⟨(config_calls_sync_validation ⟨none, none⟩ (.num 42) "x").1 rfl,
   (config_calls_sync_validation ⟨none, none⟩ (.str "") "x").2.1 rfl,
   (config_calls_sync_validation ⟨none, none⟩ (.num 42) "Bearer tok").2.2.1 rfl,
   (config_calls_sync_validation ⟨some "t", none⟩ (.num 42)
     "https://api.eu.amazonalexa.com").2.2.2 rfl⟩

/-- Claim C10: when the caller's params object has a `skillId` property, the
intent-request listing deletes that property from the caller's own object
before forwarding it: afterwards the object no longer has `skillId`, the
forwarded query object is exactly the caller's mutated object, the object
really changed, every other property survives unchanged, and the deleted
value was used to build the URL. -/
theorem intentRequestsList_frame (params : Json) (k : String)
    (hp : params.hasField "skillId" = true) :
    (intentRequestsList params).2.hasField "skillId" = false
  ∧ (intentRequestsList params).1.payload = (intentRequestsList params).2
  ∧ (intentRequestsList params).2 ≠ params
  ∧ (k ≠ "skillId" → (intentRequestsList params).2.get k = params.get k)
  ∧ (intentRequestsList params).1.url
      = "/v1/skills/" ++ (params.get "skillId").jstr ++ "/history/intentRequests" := by
  cases params with
  | undefined => simp [Json.hasField] at hp
  | null => simp [Json.hasField] at hp
  | bool b => simp [Json.hasField] at hp
  | num n => simp [Json.hasField] at hp
  | str t => simp [Json.hasField] at hp
  | obj fs =>
    have h1 : (intentRequestsList (.obj fs)).2.hasField "skillId" = false := by
      show ((fs.filter (fun kv => kv.1 != "skillId")).lookup "skillId").isSome = false
      rw [List.lookup_filter_of_key_none fs "skillId" _ (fun v => by simp)]
      rfl
    refine ⟨h1, rfl, ?_, ?_, rfl⟩
    · intro heq
      rw [heq] at h1
      rw [hp] at h1
      cases h1
    · intro hk
      show ((fs.filter (fun kv => kv.1 != "skillId")).lookup k).getD .undefined
          = (fs.lookup k).getD .undefined
      rw [List.lookup_filter_of_key fs k _ (fun v => by simp [hk])]

/-- Claim C10, witness: a concrete params object with `skillId` and
`maxResults` loses exactly its `skillId` property, forwards the rest, and
the URL embeds the deleted skill id. -/
theorem intentRequestsList_frame_witness :
    (Json.obj [("skillId", .str "amzn1.ask.skill.123"),
               ("maxResults", .num 5)]).hasField "skillId" = true
  ∧ (intentRequestsList (.obj [("skillId", .str "amzn1.ask.skill.123"),
       ("maxResults", .num 5)])).2.hasField "skillId" = false
  ∧ (intentRequestsList (.obj [("skillId", .str "amzn1.ask.skill.123"),
       ("maxResults", .num 5)])).2.get "maxResults" = .num 5
  ∧ (intentRequestsList (.obj [("skillId", .str "amzn1.ask.skill.123"),
       ("maxResults", .num 5)])).1.url
      = "/v1/skills/amzn1.ask.skill.123/history/intentRequests" := by
  refine ⟨rfl, ?_, ?_, ?_⟩
  · exact (intentRequestsList_frame (.obj [("skillId", .str "amzn1.ask.skill.123"),
      ("maxResults", .num 5)]) "maxResults" rfl).1
  · exact (intentRequestsList_frame (.obj [("skillId", .str "amzn1.ask.skill.123"),
      ("maxResults", .num 5)]) "maxResults" rfl).2.2.2.1 (by decide)
  · exact (intentRequestsList_frame (.obj [("skillId", .str "amzn1.ask.skill.123"),
      ("maxResults", .num 5)]) "maxResults" rfl).2.2.2.2
